import Mathlib

/-!
Verification of the wind-load calculation engine of the Amusement Park Ride
Designer (`calculate_wind_load` in `Amusement_park.py`).

The function is embedded shallowly: machine floats become real numbers, the
numpy arrays become lists of reals obtained by mapping the per-elevation scalar
formulas over the elevation grid, and the one fallible step of the source
(`vm[-1]`, which raises on an empty array, i.e. when `H < 1`) becomes an
`Option`: the embedding returns `none` exactly when that indexing would fail.
-/

namespace AmusementPark

open scoped Classical

/-- The argument tuple of `calculate_wind_load`, with the default values of the
Python signature:
`calculate_wind_load(H, omega, g, rho_air, Ax=303.3, Ay=592.5, z0=0.01, c_dir=1, c_season=1, c0=1, cp=1.2)`. -/
structure WindInput where
  H : ℤ
  omega : ℝ
  g : ℝ
  rho_air : ℝ
  Ax : ℝ := 303.3
  Ay : ℝ := 592.5
  z0 : ℝ := 0.01
  c_dir : ℝ := 1
  c_season : ℝ := 1
  c0 : ℝ := 1
  cp : ℝ := 1.2

/-- The result dictionary
`{'z': z, 'vm': vm, 'vm_max': vm_max, 'Fwy': Fwy, 'Fwx': Fwx, 'q_p': q_p, 'Iv': Iv}`. -/
structure WindResult where
  z : List ℤ
  vm : List ℝ
  vm_max : ℝ
  Fwy : List ℝ
  Fwx : List ℝ
  q_p : List ℝ
  Iv : List ℝ

/-- Embedding of `np.arange(a, b)` on integers: the list `a, a+1, …, b-1`. -/
def arange (a b : ℤ) : List ℤ :=
  (List.range (b - a).toNat).map (fun (i : ℕ) => a + (i : ℤ))

/-- Source line `v_b0 = 100 / 3.6`. -/
noncomputable def v_b0 : ℝ := 100 / 3.6

/-- Source line `vb = c_dir * c_season * v_b0`. -/
noncomputable def vb (p : WindInput) : ℝ := p.c_dir * p.c_season * v_b0

/-- Source line `kr = 0.19 * (z0 / 0.05) ** 0.07` (`**` on floats is real exponentiation). -/
noncomputable def kr (p : WindInput) : ℝ := 0.19 * (p.z0 / 0.05) ^ (0.07 : ℝ)

/-- Source line `cr = kr * np.log(z / z0)`, per elevation. -/
noncomputable def cr (p : WindInput) (z : ℝ) : ℝ := kr p * Real.log (z / p.z0)

/-- Source line `vm = cr * c0 * vb`, per elevation. -/
noncomputable def vm (p : WindInput) (z : ℝ) : ℝ := cr p z * p.c0 * vb p

/-- Source line `kl = 1`. -/
def kl : ℝ := 1

/-- Source line `Iv = kl / (c0 * np.log(z / z0))`, per elevation. -/
noncomputable def Iv (p : WindInput) (z : ℝ) : ℝ := kl / (p.c0 * Real.log (z / p.z0))

/-- Source line `q_p = 0.5 * rho_air * (vm ** 2) * (1 + 7 * Iv)`, per elevation. -/
noncomputable def q_p (p : WindInput) (z : ℝ) : ℝ :=
  0.5 * p.rho_air * vm p z ^ 2 * (1 + 7 * Iv p z)

/-- Source line `Fwy = q_p * cp * Ay / 1e3` (`1e3 = 1000`), per elevation. -/
noncomputable def Fwy (p : WindInput) (z : ℝ) : ℝ := q_p p z * p.cp * p.Ay / 1000

/-- Source line `Fwx = q_p * cp * Ax / 1e3` (`1e3 = 1000`), per elevation. -/
noncomputable def Fwx (p : WindInput) (z : ℝ) : ℝ := q_p p z * p.cp * p.Ax / 1000

/-- The elevation grid `z = np.arange(1, H + 1)`. -/
def zGrid (p : WindInput) : List ℤ := arange 1 (p.H + 1)

/-- The result dictionary built by the body of `calculate_wind_load`, with
`vm_max = vm[-1]` read off as the last element of the `vm` array (defaulting to
`0` for the empty array; `calculate_wind_load` below only uses it when the
array is nonempty, exactly as the source only reaches the later lines when
`vm[-1]` did not raise). -/
noncomputable def windResult (p : WindInput) : WindResult :=
  { z := zGrid p
    vm := (zGrid p).map (fun (n : ℤ) => vm p (n : ℝ))
    vm_max := ((zGrid p).map (fun (n : ℤ) => vm p (n : ℝ))).getLastD 0
    Fwy := (zGrid p).map (fun (n : ℤ) => Fwy p (n : ℝ))
    Fwx := (zGrid p).map (fun (n : ℤ) => Fwx p (n : ℝ))
    q_p := (zGrid p).map (fun (n : ℤ) => q_p p (n : ℝ))
    Iv := (zGrid p).map (fun (n : ℤ) => Iv p (n : ℝ)) }

/-- The function `calculate_wind_load`. The only step of the body that can fail is
`vm_max = vm[-1]` (an index error on the empty array, i.e. when `H < 1`); every
other line is total arithmetic on arrays. The embedding therefore returns
`none` exactly when the `vm` array is empty and the full result otherwise. -/
noncomputable def calculate_wind_load (p : WindInput) : Option WindResult :=
  match ((zGrid p).map (fun (n : ℤ) => vm p (n : ℝ))).getLast? with
  | none => none
  | some _ => some (windResult p)

/-- The input tuple with only the four positional arguments supplied and every
keyword argument left at its default, as in the app's call site
`calculate_wind_load(int(height), omega, gravity, air_density)`. -/
def mkInput (H : ℤ) (om g rho : ℝ) : WindInput :=
  { H := H, omega := om, g := g, rho_air := rho }

/-- Cache soundness — every cached entry stores exactly the value that
recomputation would produce. -/
def CacheSound (c : WindInput → Option (Option WindResult)) : Prop :=
  ∀ q r, c q = some r → r = calculate_wind_load q

/-- A memoized wrapper around `calculate_wind_load`, keyed on the full argument
tuple as `st.cache_data` is: on a hit it returns the stored result, on a miss
it computes, stores and returns. -/
noncomputable def computeCached (c : WindInput → Option (Option WindResult))
    (p : WindInput) : Option WindResult × (WindInput → Option (Option WindResult)) :=
  match c p with
  | some r => (r, c)
  | none =>
    (calculate_wind_load p,
      fun q => if q = p then some (calculate_wind_load p) else c q)

namespace RefSpec

/-! The reference formulas exactly as the specification states them, with the
default constants `areaX = 303.3`, `areaY = 592.5`, `roughnessLen = 0.01`,
`cDir = cSeason = cOrography = 1`, `cForce = 1.2` substituted. These are
written from the specification text, to be compared with the embedding of the
source above. -/

/-- Reference grid: the elevations `1, 2, …, height`. -/
def grid (H : ℤ) : List ℤ := (List.range H.toNat).map (fun (i : ℕ) => 1 + (i : ℤ))

/-- Reference `vb = cDir * cSeason * (100/3.6)`. -/
noncomputable def vb : ℝ := 1 * 1 * (100 / 3.6)

/-- Reference `kr = 0.19 * (roughnessLen/0.05)^0.07`. -/
noncomputable def kr : ℝ := 0.19 * ((0.01 : ℝ) / 0.05) ^ (0.07 : ℝ)

/-- Reference `cr(z) = kr * ln(z/roughnessLen)`. -/
noncomputable def cr (z : ℝ) : ℝ := kr * Real.log (z / 0.01)

/-- Reference `vm(z) = cr(z) * cOrography * vb`. -/
noncomputable def vm (z : ℝ) : ℝ := cr z * 1 * vb

/-- Reference `Iv(z) = 1 / (cOrography * ln(z/roughnessLen))`. -/
noncomputable def Iv (z : ℝ) : ℝ := 1 / (1 * Real.log (z / 0.01))

/-- Reference `q_p(z) = 0.5 * airDensity * vm(z)^2 * (1 + 7*Iv(z))`. -/
noncomputable def q_p (rho z : ℝ) : ℝ := 0.5 * rho * vm z ^ 2 * (1 + 7 * Iv z)

/-- Reference `Fwx(z) = q_p(z) * cForce * areaX / 1000`. -/
noncomputable def Fwx (rho z : ℝ) : ℝ := q_p rho z * 1.2 * 303.3 / 1000

/-- Reference `Fwy(z) = q_p(z) * cForce * areaY / 1000`. -/
noncomputable def Fwy (rho z : ℝ) : ℝ := q_p rho z * 1.2 * 592.5 / 1000

end RefSpec

/-! Basic facts about the elevation grid and the success/failure split. -/

theorem zGrid_eq (p : WindInput) :
    zGrid p = (List.range p.H.toNat).map (fun (i : ℕ) => 1 + (i : ℤ)) := by
  unfold zGrid arange
  have h : p.H + 1 - 1 = p.H := by ring
  rw [h]

theorem zGrid_length (p : WindInput) : (zGrid p).length = p.H.toNat := by
  rw [zGrid_eq, List.length_map, List.length_range]

theorem zGrid_getLast? (p : WindInput) (h : 1 ≤ p.H) :
    (zGrid p).getLast? = some p.H := by
  rw [zGrid_eq]
  obtain ⟨m, hm⟩ : ∃ m : ℕ, p.H.toNat = m + 1 := by
    refine ⟨p.H.toNat - 1, ?_⟩
    omega
  rw [hm, List.range_succ, List.map_append]
  simp only [List.map_cons, List.map_nil]
  rw [List.getLast?_concat]
  simp only [Option.some.injEq]
  omega

theorem zGrid_ne_nil (p : WindInput) (h : 1 ≤ p.H) : zGrid p ≠ [] := by
  intro hnil
  have := zGrid_getLast? p h
  rw [hnil] at this
  simp at this

/-- When the preconditions hold, `calculate_wind_load` succeeds and returns
exactly the result dictionary `windResult`. -/
theorem compute_eq_some (p : WindInput) (h : 1 ≤ p.H) :
    calculate_wind_load p = some (windResult p) := by
  unfold calculate_wind_load
  have hne : ((zGrid p).map (fun (n : ℤ) => vm p (n : ℝ))).getLast? ≠ none := by
    intro hmap
    rw [List.getLast?_eq_none_iff] at hmap
    exact zGrid_ne_nil p h (by simpa using hmap)
  cases hl : ((zGrid p).map (fun (n : ℤ) => vm p (n : ℝ))).getLast? with
  | none => exact absurd hl hne
  | some v => rfl

theorem compute_none_iff (p : WindInput) :
    calculate_wind_load p = none ↔ p.H < 1 := by
  constructor
  · intro hc
    by_contra hlt
    rw [compute_eq_some p (by omega)] at hc
    exact Option.noConfusion hc
  · intro hH
    unfold calculate_wind_load
    have hnil : zGrid p = [] := by
      rw [zGrid_eq]
      have : p.H.toNat = 0 := by omega
      rw [this]
      rfl
    rw [hnil]
    rfl

theorem windResult_vm_getLast? (p : WindInput) (h : 1 ≤ p.H) :
    (windResult p).vm.getLast? = some (vm p (p.H : ℝ)) := by
  show ((zGrid p).map (fun (n : ℤ) => vm p (n : ℝ))).getLast? = some (vm p (p.H : ℝ))
  rw [List.getLast?_map, zGrid_getLast? p h]
  rfl

theorem windResult_vm_max_eq (p : WindInput) (h : 1 ≤ p.H) :
    (windResult p).vm_max = vm p (p.H : ℝ) := by
  show ((zGrid p).map (fun (n : ℤ) => vm p (n : ℝ))).getLastD 0 = vm p (p.H : ℝ)
  rw [List.getLastD_eq_getLast?]
  have hl : ((zGrid p).map (fun (n : ℤ) => vm p (n : ℝ))).getLast? = some (vm p (p.H : ℝ)) :=
    windResult_vm_getLast? p h
  rw [hl]
  rfl

/-! Claims. -/

/-- C3: for every valid height `h ≥ 1`, the elevation sequence of the result is
exactly `1, 2, …, h` (h entries, starting at 1, strictly increasing by 1), and
each parallel per-elevation sequence (`vm`, `Iv`, `q_p`, `Fwx`, `Fwy`) has
length exactly `h`; in particular `height = 1` produces single-element
arrays. -/
theorem C3_result_shape (p : WindInput) (h : 1 ≤ p.H) :
    calculate_wind_load p = some (windResult p) ∧
    (windResult p).z = (List.range p.H.toNat).map (fun (i : ℕ) => 1 + (i : ℤ)) ∧
    ((windResult p).z.length : ℤ) = p.H ∧
    ((windResult p).vm.length : ℤ) = p.H ∧
    ((windResult p).Iv.length : ℤ) = p.H ∧
    ((windResult p).q_p.length : ℤ) = p.H ∧
    ((windResult p).Fwx.length : ℤ) = p.H ∧
    ((windResult p).Fwy.length : ℤ) = p.H := by
  have hlen : ((zGrid p).length : ℤ) = p.H := by
    rw [zGrid_length]
    omega
  exact ⟨compute_eq_some p h, zGrid_eq p,
    by simpa [windResult] using hlen, by simpa [windResult] using hlen,
    by simpa [windResult] using hlen, by simpa [windResult] using hlen,
    by simpa [windResult] using hlen, by simpa [windResult] using hlen⟩

/-- C3 witness: at the boundary input `height = 1` the computation succeeds and
all arrays are single-element. -/
theorem C3_result_shape_witness :
    (1 : ℤ) ≤ (mkInput 1 0.628 9.81 1.225).H ∧
    (calculate_wind_load (mkInput 1 0.628 9.81 1.225) =
        some (windResult (mkInput 1 0.628 9.81 1.225)) ∧
      (windResult (mkInput 1 0.628 9.81 1.225)).z =
        (List.range (mkInput 1 0.628 9.81 1.225).H.toNat).map (fun (i : ℕ) => 1 + (i : ℤ)) ∧
      ((windResult (mkInput 1 0.628 9.81 1.225)).z.length : ℤ) = (mkInput 1 0.628 9.81 1.225).H ∧
      ((windResult (mkInput 1 0.628 9.81 1.225)).vm.length : ℤ) = (mkInput 1 0.628 9.81 1.225).H ∧
      ((windResult (mkInput 1 0.628 9.81 1.225)).Iv.length : ℤ) = (mkInput 1 0.628 9.81 1.225).H ∧
      ((windResult (mkInput 1 0.628 9.81 1.225)).q_p.length : ℤ) = (mkInput 1 0.628 9.81 1.225).H ∧
      ((windResult (mkInput 1 0.628 9.81 1.225)).Fwx.length : ℤ) = (mkInput 1 0.628 9.81 1.225).H ∧
      ((windResult (mkInput 1 0.628 9.81 1.225)).Fwy.length : ℤ) = (mkInput 1 0.628 9.81 1.225).H) :=
  ⟨by norm_num [mkInput], C3_result_shape (mkInput 1 0.628 9.81 1.225) (by norm_num [mkInput])⟩

/-- C4: for every valid input, the scalar `vm_max` equals `vm(height)`, the
mean wind velocity at the topmost sampled elevation, which is the last entry of
the `vm` sequence. -/
theorem C4_vm_max_is_top (p : WindInput) (h : 1 ≤ p.H) :
    calculate_wind_load p = some (windResult p) ∧
    (windResult p).vm_max = vm p (p.H : ℝ) ∧
    (windResult p).vm.getLast? = some ((windResult p).vm_max) := by
  exact ⟨compute_eq_some p h, windResult_vm_max_eq p h,
    by rw [windResult_vm_max_eq p h]; exact windResult_vm_getLast? p h⟩

/-- C4 witness: concrete check at `height = 3`. -/
theorem C4_vm_max_is_top_witness :
    (1 : ℤ) ≤ (mkInput 3 0.1 9.81 1.225).H ∧
    (calculate_wind_load (mkInput 3 0.1 9.81 1.225) =
        some (windResult (mkInput 3 0.1 9.81 1.225)) ∧
      (windResult (mkInput 3 0.1 9.81 1.225)).vm_max =
        vm (mkInput 3 0.1 9.81 1.225) ((mkInput 3 0.1 9.81 1.225).H : ℝ) ∧
      (windResult (mkInput 3 0.1 9.81 1.225)).vm.getLast? =
        some ((windResult (mkInput 3 0.1 9.81 1.225)).vm_max)) :=
  ⟨by norm_num [mkInput], C4_vm_max_is_top (mkInput 3 0.1 9.81 1.225) (by norm_num [mkInput])⟩

/-- C8: the `omega` and `gravity` parameters do not influence any output: two
inputs that agree on all arguments except `omega` and `g` produce identical
results (all sequences and `vm_max`). Proved for all inputs, in particular all
valid ones. -/
theorem C8_omega_gravity_unused (H : ℤ) (om g om' g' rho ax ay z0 cd cs c0 cp : ℝ) :
    calculate_wind_load ⟨H, om, g, rho, ax, ay, z0, cd, cs, c0, cp⟩ =
      calculate_wind_load ⟨H, om', g', rho, ax, ay, z0, cd, cs, c0, cp⟩ := rfl

/-- C7: doubling `areaX` (respectively `areaY`) doubles `Fwx` (respectively
`Fwy`) at every elevation and leaves `z`, `vm`, `Iv`, `q_p` and the other load
axis unchanged. -/
theorem C7_area_scaling (p : WindInput) (h1 : 1 ≤ p.H) (h2 : 0 < p.z0)
    (h3 : 0 < p.rho_air) :
    calculate_wind_load { p with Ax := 2 * p.Ax } =
        some (windResult { p with Ax := 2 * p.Ax }) ∧
    (windResult { p with Ax := 2 * p.Ax }).Fwx =
        (windResult p).Fwx.map (fun x => 2 * x) ∧
    (windResult { p with Ax := 2 * p.Ax }).z = (windResult p).z ∧
    (windResult { p with Ax := 2 * p.Ax }).vm = (windResult p).vm ∧
    (windResult { p with Ax := 2 * p.Ax }).Iv = (windResult p).Iv ∧
    (windResult { p with Ax := 2 * p.Ax }).q_p = (windResult p).q_p ∧
    (windResult { p with Ax := 2 * p.Ax }).Fwy = (windResult p).Fwy ∧
    calculate_wind_load { p with Ay := 2 * p.Ay } =
        some (windResult { p with Ay := 2 * p.Ay }) ∧
    (windResult { p with Ay := 2 * p.Ay }).Fwy =
        (windResult p).Fwy.map (fun x => 2 * x) ∧
    (windResult { p with Ay := 2 * p.Ay }).z = (windResult p).z ∧
    (windResult { p with Ay := 2 * p.Ay }).vm = (windResult p).vm ∧
    (windResult { p with Ay := 2 * p.Ay }).Iv = (windResult p).Iv ∧
    (windResult { p with Ay := 2 * p.Ay }).q_p = (windResult p).q_p ∧
    (windResult { p with Ay := 2 * p.Ay }).Fwx = (windResult p).Fwx := by
  have hx : (windResult { p with Ax := 2 * p.Ax }).Fwx =
      (windResult p).Fwx.map (fun x => 2 * x) := by
    show (zGrid p).map (fun (n : ℤ) => Fwx { p with Ax := 2 * p.Ax } (n : ℝ)) =
      ((zGrid p).map (fun (n : ℤ) => Fwx p (n : ℝ))).map (fun x => 2 * x)
    rw [List.map_map]
    congr 1
    funext n
    show q_p p (n : ℝ) * p.cp * (2 * p.Ax) / 1000 =
      2 * (q_p p (n : ℝ) * p.cp * p.Ax / 1000)
    ring
  have hy : (windResult { p with Ay := 2 * p.Ay }).Fwy =
      (windResult p).Fwy.map (fun x => 2 * x) := by
    show (zGrid p).map (fun (n : ℤ) => Fwy { p with Ay := 2 * p.Ay } (n : ℝ)) =
      ((zGrid p).map (fun (n : ℤ) => Fwy p (n : ℝ))).map (fun x => 2 * x)
    rw [List.map_map]
    congr 1
    funext n
    show q_p p (n : ℝ) * p.cp * (2 * p.Ay) / 1000 =
      2 * (q_p p (n : ℝ) * p.cp * p.Ay / 1000)
    ring
  exact ⟨compute_eq_some _ h1, hx, rfl, rfl, rfl, rfl, rfl,
    compute_eq_some _ h1, hy, rfl, rfl, rfl, rfl, rfl⟩

/-- C10: the two load sequences are pointwise proportional with ratio
`areaX / areaY`: at every elevation, `Fwx(z) * areaY = Fwy(z) * areaX`. -/
theorem C10_load_proportionality (p : WindInput) (h1 : 1 ≤ p.H) (h2 : 0 < p.z0)
    (h3 : 0 < p.rho_air) :
    calculate_wind_load p = some (windResult p) ∧
    List.Forall₂ (fun a b => a * p.Ay = b * p.Ax)
      (windResult p).Fwx (windResult p).Fwy := by
  refine ⟨compute_eq_some p h1, ?_⟩
  show List.Forall₂ _ ((zGrid p).map (fun (n : ℤ) => Fwx p (n : ℝ)))
    ((zGrid p).map (fun (n : ℤ) => Fwy p (n : ℝ)))
  rw [List.forall₂_map_left_iff, List.forall₂_map_right_iff, List.forall₂_same]
  intro n hn
  show Fwx p (n : ℝ) * p.Ay = Fwy p (n : ℝ) * p.Ax
  unfold Fwx Fwy
  ring

/-- C7 witness: concrete check at `height = 2` with defaults. -/
theorem C7_area_scaling_witness :
    ((1 : ℤ) ≤ (mkInput 2 1 1 1).H ∧ (0:ℝ) < (mkInput 2 1 1 1).z0 ∧
      (0:ℝ) < (mkInput 2 1 1 1).rho_air) ∧
    ((windResult { mkInput 2 1 1 1 with Ax := 2 * (mkInput 2 1 1 1).Ax }).Fwx =
        (windResult (mkInput 2 1 1 1)).Fwx.map (fun x => 2 * x) ∧
      (windResult { mkInput 2 1 1 1 with Ay := 2 * (mkInput 2 1 1 1).Ay }).Fwy =
        (windResult (mkInput 2 1 1 1)).Fwy.map (fun x => 2 * x)) :=
  ⟨⟨by norm_num [mkInput], by norm_num [mkInput], by norm_num [mkInput]⟩,
    ((C7_area_scaling (mkInput 2 1 1 1) (by norm_num [mkInput])
        (by norm_num [mkInput]) (by norm_num [mkInput])).2.1),
    ((C7_area_scaling (mkInput 2 1 1 1) (by norm_num [mkInput])
        (by norm_num [mkInput]) (by norm_num [mkInput])).2.2.2.2.2.2.2.2.1)⟩

/-- C10 witness: concrete check at `height = 2` with defaults. -/
theorem C10_load_proportionality_witness :
    ((1 : ℤ) ≤ (mkInput 2 1 1 1).H ∧ (0:ℝ) < (mkInput 2 1 1 1).z0 ∧
      (0:ℝ) < (mkInput 2 1 1 1).rho_air) ∧
    (calculate_wind_load (mkInput 2 1 1 1) = some (windResult (mkInput 2 1 1 1)) ∧
      List.Forall₂ (fun a b => a * (mkInput 2 1 1 1).Ay = b * (mkInput 2 1 1 1).Ax)
        (windResult (mkInput 2 1 1 1)).Fwx (windResult (mkInput 2 1 1 1)).Fwy) :=
  ⟨⟨by norm_num [mkInput], by norm_num [mkInput], by norm_num [mkInput]⟩,
    C10_load_proportionality (mkInput 2 1 1 1) (by norm_num [mkInput])
      (by norm_num [mkInput]) (by norm_num [mkInput])⟩

/-- C2 counterexample: the claim demands that `airDensity ≤ 0` make the call
fail, but at `height = 5, omega = 0.628, g = 9.81, airDensity = -1` the source
performs no validation and returns a result normally. -/
theorem C2_counterexample :
    ((mkInput 5 0.628 9.81 (-1)).rho_air ≤ 0 ∧
      calculate_wind_load (mkInput 5 0.628 9.81 (-1)) =
        some (windResult (mkInput 5 0.628 9.81 (-1)))) ∧
    (({ mkInput 5 0.628 9.81 1.225 with z0 := -0.5 } : WindInput).z0 ≤ 0 ∧
      calculate_wind_load { mkInput 5 0.628 9.81 1.225 with z0 := -0.5 } =
        some (windResult { mkInput 5 0.628 9.81 1.225 with z0 := -0.5 })) := by
  refine ⟨⟨by norm_num [mkInput], compute_eq_some _ ?_⟩,
    ⟨by norm_num [mkInput], compute_eq_some _ ?_⟩⟩ <;> norm_num [mkInput]

/-- C2 (amended): `calculate_wind_load` performs no input validation; the call
fails if and only if `height < 1` (the read `vm[-1]` of the last element of the
then-empty `vm` array raises an index error, not an `InvalidInput` error), and
for `roughnessLen ≤ 0` or `airDensity ≤ 0` with `height ≥ 1` it returns a
result normally. -/
theorem C2_no_validation (p : WindInput) :
    calculate_wind_load p = none ↔ p.H < 1 :=
  compute_none_iff p

/-- C9: the computation is deterministic and the cache transparent: against any
sound cache, the memoized call returns exactly what direct recomputation
returns, and the updated cache is again sound — so cached and recomputed
invocations with identical arguments agree. -/
theorem C9_cache_transparent (c : WindInput → Option (Option WindResult))
    (p : WindInput) (hc : CacheSound c) :
    (computeCached c p).1 = calculate_wind_load p ∧
    CacheSound (computeCached c p).2 := by
  unfold computeCached
  cases hcp : c p with
  | some r =>
    exact ⟨hc p r hcp, hc⟩
  | none =>
    refine ⟨rfl, ?_⟩
    intro q s hq
    simp only at hq
    by_cases hqp : q = p
    · subst hqp
      rw [if_pos rfl] at hq
      exact (Option.some.inj hq).symm
    · rw [if_neg hqp] at hq
      exact hc q s hq

/-- C9 witness: starting from the empty cache (vacuously sound), the memoized
call at a concrete input returns the recomputed value and leaves a sound
cache. -/
theorem C9_cache_transparent_witness :
    CacheSound (fun _ => none) ∧
    ((computeCached (fun _ => none) (mkInput 4 0.628 9.81 1.225)).1 =
        calculate_wind_load (mkInput 4 0.628 9.81 1.225) ∧
      CacheSound (computeCached (fun _ => none) (mkInput 4 0.628 9.81 1.225)).2) :=
  ⟨fun _ r h => Option.noConfusion h,
    C9_cache_transparent (fun _ => none) (mkInput 4 0.628 9.81 1.225)
      (fun _ r h => Option.noConfusion h)⟩

/-- C1: for every input satisfying the preconditions (integer `height ≥ 1`,
`roughnessLen > 0` — the default `0.01` — and `airDensity > 0`), `compute`
succeeds and its per-elevation arrays equal, step for step, the reference
formulas of the specification evaluated at each `z` in `1..height` with the
default constants. -/
theorem C1_matches_reference_formulas (H : ℤ) (om g rho : ℝ) (h1 : 1 ≤ H)
    (h2 : (0 : ℝ) < rho) :
    calculate_wind_load (mkInput H om g rho) = some (windResult (mkInput H om g rho)) ∧
    vb (mkInput H om g rho) = RefSpec.vb ∧
    kr (mkInput H om g rho) = RefSpec.kr ∧
    (windResult (mkInput H om g rho)).z = RefSpec.grid H ∧
    (windResult (mkInput H om g rho)).vm =
      (RefSpec.grid H).map (fun (n : ℤ) => RefSpec.vm (n : ℝ)) ∧
    (windResult (mkInput H om g rho)).Iv =
      (RefSpec.grid H).map (fun (n : ℤ) => RefSpec.Iv (n : ℝ)) ∧
    (windResult (mkInput H om g rho)).q_p =
      (RefSpec.grid H).map (fun (n : ℤ) => RefSpec.q_p rho (n : ℝ)) ∧
    (windResult (mkInput H om g rho)).Fwx =
      (RefSpec.grid H).map (fun (n : ℤ) => RefSpec.Fwx rho (n : ℝ)) ∧
    (windResult (mkInput H om g rho)).Fwy =
      (RefSpec.grid H).map (fun (n : ℤ) => RefSpec.Fwy rho (n : ℝ)) := by
  have hg : zGrid (mkInput H om g rho) = RefSpec.grid H := zGrid_eq _
  refine ⟨compute_eq_some _ h1, rfl, rfl, hg, ?_, ?_, ?_, ?_, ?_⟩ <;>
    · show (zGrid (mkInput H om g rho)).map _ = _
      rw [hg]
      rfl

/-- C1 witness: concrete check at `height = 2`, `airDensity = 1.225`. -/
theorem C1_matches_reference_formulas_witness :
    ((1 : ℤ) ≤ 2 ∧ (0 : ℝ) < 1.225) ∧
    (calculate_wind_load (mkInput 2 0.628 9.81 1.225) =
        some (windResult (mkInput 2 0.628 9.81 1.225)) ∧
      vb (mkInput 2 0.628 9.81 1.225) = RefSpec.vb ∧
      kr (mkInput 2 0.628 9.81 1.225) = RefSpec.kr ∧
      (windResult (mkInput 2 0.628 9.81 1.225)).z = RefSpec.grid 2 ∧
      (windResult (mkInput 2 0.628 9.81 1.225)).vm =
        (RefSpec.grid 2).map (fun (n : ℤ) => RefSpec.vm (n : ℝ)) ∧
      (windResult (mkInput 2 0.628 9.81 1.225)).Iv =
        (RefSpec.grid 2).map (fun (n : ℤ) => RefSpec.Iv (n : ℝ)) ∧
      (windResult (mkInput 2 0.628 9.81 1.225)).q_p =
        (RefSpec.grid 2).map (fun (n : ℤ) => RefSpec.q_p 1.225 (n : ℝ)) ∧
      (windResult (mkInput 2 0.628 9.81 1.225)).Fwx =
        (RefSpec.grid 2).map (fun (n : ℤ) => RefSpec.Fwx 1.225 (n : ℝ)) ∧
      (windResult (mkInput 2 0.628 9.81 1.225)).Fwy =
        (RefSpec.grid 2).map (fun (n : ℤ) => RefSpec.Fwy 1.225 (n : ℝ))) :=
  ⟨⟨by norm_num, by norm_num⟩,
    C1_matches_reference_formulas 2 0.628 9.81 1.225 (by norm_num) (by norm_num)⟩

/-- C6: for every valid height `h ≥ 1` and every `roughnessLen ∈ (0, 1)` (with
the other constants at their defaults), the `vm` sequence of the result is
strictly increasing in `z`: adjacent entries satisfy `vm(z) < vm(z+1)`. -/
theorem C6_vm_strictly_increasing (H : ℤ) (om g rho z0 : ℝ) (h1 : 1 ≤ H)
    (h2 : (0 : ℝ) < z0) (h3 : z0 < 1) :
    calculate_wind_load { H := H, omega := om, g := g, rho_air := rho, z0 := z0 } =
      some (windResult { H := H, omega := om, g := g, rho_air := rho, z0 := z0 }) ∧
    List.Chain' (fun a b => a < b)
      (windResult { H := H, omega := om, g := g, rho_air := rho, z0 := z0 }).vm := by
  set p : WindInput := { H := H, omega := om, g := g, rho_air := rho, z0 := z0 } with hp
  have hkr : (0 : ℝ) < kr p := by
    have hbase : (0 : ℝ) < p.z0 / 0.05 := div_pos h2 (by norm_num)
    have := Real.rpow_pos_of_pos hbase (0.07 : ℝ)
    unfold kr
    nlinarith [this]
  have hvm : ∀ x y : ℝ, 1 ≤ x → x < y → vm p x < vm p y := by
    intro x y hx hxy
    have hdiv : x / p.z0 < y / p.z0 := by gcongr
    have hpos : (0 : ℝ) < x / p.z0 := div_pos (by linarith) h2
    have hlog : Real.log (x / p.z0) < Real.log (y / p.z0) := Real.log_lt_log hpos hdiv
    show (kr p * Real.log (x / p.z0)) * (1 : ℝ) * ((1 : ℝ) * 1 * (100 / 3.6)) <
      (kr p * Real.log (y / p.z0)) * (1 : ℝ) * ((1 : ℝ) * 1 * (100 / 3.6))
    nlinarith [hkr, hlog]
  refine ⟨compute_eq_some p h1, ?_⟩
  show List.Chain' (fun a b => a < b) ((zGrid p).map (fun (n : ℤ) => vm p (n : ℝ)))
  rw [zGrid_eq, List.chain'_map, List.chain'_map]
  obtain ⟨m, hm⟩ : ∃ m : ℕ, p.H.toNat = m + 1 := by
    refine ⟨p.H.toNat - 1, ?_⟩
    have : p.H = H := by rw [hp]
    omega
  rw [hm, List.chain'_range_succ]
  intro k hk
  apply hvm
  · push_cast
    linarith [Nat.cast_nonneg (α := ℝ) k]
  · push_cast
    linarith

/-- C6 witness: concrete check at `height = 3` with the default
`roughnessLen = 0.01`. -/
theorem C6_vm_strictly_increasing_witness :
    ((1 : ℤ) ≤ 3 ∧ (0 : ℝ) < 0.01 ∧ (0.01 : ℝ) < 1) ∧
    (calculate_wind_load
        { H := 3, omega := 0.628, g := 9.81, rho_air := 1.225, z0 := 0.01 } =
      some (windResult
        { H := 3, omega := 0.628, g := 9.81, rho_air := 1.225, z0 := 0.01 }) ∧
    List.Chain' (fun a b => a < b)
      (windResult
        { H := 3, omega := 0.628, g := 9.81, rho_air := 1.225, z0 := 0.01 }).vm) :=
  ⟨⟨by norm_num, by norm_num, by norm_num⟩,
    C6_vm_strictly_increasing 3 0.628 9.81 1.225 0.01 (by norm_num) (by norm_num)
      (by norm_num)⟩

/-! Numeric bounds for the concrete scenario of C5. -/

theorem rpow_fifth_lo : (0.89341 : ℝ) ≤ ((1:ℝ)/5) ^ (0.07 : ℝ) := by
  have h1 : ((0.89341:ℝ)) ^ (100:ℕ) ≤ ((1:ℝ)/5) ^ (7:ℕ) := by norm_num
  have ha : (0:ℝ) ≤ 0.89341 := by norm_num
  have hx : (0:ℝ) ≤ 1/5 := by norm_num
  calc (0.89341:ℝ) = (((0.89341:ℝ) ^ (100:ℕ))) ^ ((100:ℝ)⁻¹) := by
        rw [← Real.rpow_natCast (0.89341:ℝ) 100, ← Real.rpow_mul ha]
        norm_num
    _ ≤ (((1:ℝ)/5) ^ (7:ℕ)) ^ ((100:ℝ)⁻¹) :=
        Real.rpow_le_rpow (by positivity) h1 (by norm_num)
    _ = ((1:ℝ)/5) ^ (0.07:ℝ) := by
        rw [← Real.rpow_natCast ((1:ℝ)/5) 7, ← Real.rpow_mul hx]
        norm_num

theorem rpow_fifth_hi : ((1:ℝ)/5) ^ (0.07 : ℝ) ≤ 0.89349 := by
  have h1 : ((1:ℝ)/5) ^ (7:ℕ) ≤ ((0.89349:ℝ)) ^ (100:ℕ) := by norm_num
  have ha : (0:ℝ) ≤ 0.89349 := by norm_num
  have hx : (0:ℝ) ≤ 1/5 := by norm_num
  calc ((1:ℝ)/5) ^ (0.07:ℝ) = (((1:ℝ)/5) ^ (7:ℕ)) ^ ((100:ℝ)⁻¹) := by
        rw [← Real.rpow_natCast ((1:ℝ)/5) 7, ← Real.rpow_mul hx]
        norm_num
    _ ≤ (((0.89349:ℝ)) ^ (100:ℕ)) ^ ((100:ℝ)⁻¹) :=
        Real.rpow_le_rpow (by positivity) h1 (by norm_num)
    _ = (0.89349:ℝ) := by
        rw [← Real.rpow_natCast (0.89349:ℝ) 100, ← Real.rpow_mul ha]
        norm_num

theorem log_five_gt : (1.60943:ℝ) < Real.log 5 := by
  have hpow : (2:ℝ) ^ (339:ℕ) < (5:ℝ) ^ (146:ℕ) := by
    have h : (2:ℕ)^339 < 5^146 := by norm_num
    exact_mod_cast h
  have h := Real.log_lt_log (by positivity) hpow
  rw [Real.log_pow, Real.log_pow] at h
  have h2 := Real.log_two_gt_d9
  push_cast at h
  linarith

theorem log_five_lt : Real.log 5 < 1.60952 := by
  have hpow : (5:ℝ) ^ (59:ℕ) < (2:ℝ) ^ (137:ℕ) := by
    have h : (5:ℕ)^59 < 2^137 := by norm_num
    exact_mod_cast h
  have h := Real.log_lt_log (by positivity) hpow
  rw [Real.log_pow, Real.log_pow] at h
  have h2 := Real.log_two_lt_d9
  push_cast at h
  linarith

theorem log_thousand_gt : (6.90773:ℝ) ≤ Real.log 1000 := by
  have e : (1000:ℝ) = 2 ^ (3:ℕ) * 5 ^ (3:ℕ) := by norm_num
  rw [e, Real.log_mul (by positivity) (by positivity), Real.log_pow, Real.log_pow]
  have h2 := Real.log_two_gt_d9
  have h5 := log_five_gt
  push_cast
  linarith

theorem log_thousand_lt : Real.log 1000 ≤ 6.90801 := by
  have e : (1000:ℝ) = 2 ^ (3:ℕ) * 5 ^ (3:ℕ) := by norm_num
  rw [e, Real.log_mul (by positivity) (by positivity), Real.log_pow, Real.log_pow]
  have h2 := Real.log_two_lt_d9
  have h5 := log_five_lt
  push_cast
  linarith

/-- The mean wind velocity at `z = 10` for the concrete scenario lies in
`[32.56, 32.58]`. -/
theorem vm_ten_bounds :
    (32.56:ℝ) ≤ vm (mkInput 10 0.628 9.81 1.225) ((10:ℤ) : ℝ) ∧
    vm (mkInput 10 0.628 9.81 1.225) ((10:ℤ) : ℝ) ≤ 32.58 := by
  have hA1 := rpow_fifth_lo
  have hA2 := rpow_fifth_hi
  have hL1 := log_thousand_gt
  have hL2 := log_thousand_lt
  have hA0 : (0:ℝ) ≤ ((1:ℝ)/5) ^ (0.07:ℝ) := by positivity
  have h1 : (0.89341:ℝ) * 6.90773 ≤ ((1:ℝ)/5) ^ (0.07:ℝ) * Real.log 1000 :=
    mul_le_mul hA1 hL1 (by norm_num) hA0
  have h2 : ((1:ℝ)/5) ^ (0.07:ℝ) * Real.log 1000 ≤ 0.89349 * 6.90801 :=
    mul_le_mul hA2 hL2 (by linarith) (by norm_num)
  have hshow : vm (mkInput 10 0.628 9.81 1.225) ((10:ℤ) : ℝ) =
      (0.19 * ((1:ℝ)/5) ^ (0.07:ℝ) * Real.log 1000) * 1 * (1 * 1 * (100 / 3.6)) := by
    show (0.19 * ((0.01:ℝ)/0.05) ^ (0.07:ℝ) * Real.log (((10:ℤ):ℝ) / 0.01)) * 1 *
        (1 * 1 * (100 / 3.6)) =
      (0.19 * ((1:ℝ)/5) ^ (0.07:ℝ) * Real.log 1000) * 1 * (1 * 1 * (100 / 3.6))
    rw [show ((0.01:ℝ)/0.05) = (1:ℝ)/5 by norm_num,
      show (((10:ℤ):ℝ) / 0.01) = (1000:ℝ) by norm_num]
  rw [hshow]
  constructor <;> nlinarith [h1, h2]

/-- C5 counterexample: at `compute(height=10, omega=0.628, gravity=9.81,
airDensity=1.225)` with all defaults, `vm_max` is NOT within `0.01` of `30.43`:
the claimed closed-form value miscomputes `kr` (`0.19·(0.01/0.05)^0.07 ≈
0.1698`, not `0.1586`), and the actual `vm_max` exceeds `32.5`. -/
theorem C5_counterexample :
    calculate_wind_load (mkInput 10 0.628 9.81 1.225) =
      some (windResult (mkInput 10 0.628 9.81 1.225)) ∧
    ¬ |(windResult (mkInput 10 0.628 9.81 1.225)).vm_max - 30.43| ≤ 0.01 := by
  have hH : (1:ℤ) ≤ (mkInput 10 0.628 9.81 1.225).H := by norm_num [mkInput]
  have hmax : (windResult (mkInput 10 0.628 9.81 1.225)).vm_max =
      vm (mkInput 10 0.628 9.81 1.225) ((10:ℤ) : ℝ) := windResult_vm_max_eq _ hH
  refine ⟨compute_eq_some _ hH, ?_⟩
  intro habs
  rw [abs_le] at habs
  have hb := vm_ten_bounds.1
  rw [hmax] at habs
  linarith [habs.2]

/-- C5 (amended): for the concrete input `compute(height=10, omega=0.628,
gravity=9.81, airDensity=1.225)` with all default constants, the returned
`vm_max` equals the closed-form value at `z = 10`, approximately `32.57` m/s,
within a tolerance of `0.01`. -/
theorem C5_vm_max_concrete :
    calculate_wind_load (mkInput 10 0.628 9.81 1.225) =
      some (windResult (mkInput 10 0.628 9.81 1.225)) ∧
    |(windResult (mkInput 10 0.628 9.81 1.225)).vm_max - 32.57| ≤ 0.01 := by
  have hH : (1:ℤ) ≤ (mkInput 10 0.628 9.81 1.225).H := by norm_num [mkInput]
  have hmax : (windResult (mkInput 10 0.628 9.81 1.225)).vm_max =
      vm (mkInput 10 0.628 9.81 1.225) ((10:ℤ) : ℝ) := windResult_vm_max_eq _ hH
  refine ⟨compute_eq_some _ hH, ?_⟩
  rw [abs_le, hmax]
  have hb1 := vm_ten_bounds.1
  have hb2 := vm_ten_bounds.2
  constructor <;> linarith

end AmusementPark
